import Mathlib

/-
Verification of the live-call synchronization core of the AICC call-center
web client: the Redux call-state slice (callSlice), the thunks built on the
REST service, the WebSocket transport hook (useWebSocket), and the inbound
message normalization performed by the CallPage message handler.

The embedding below is a direct shallow translation of the TypeScript
source.  Reducers become pure functions on CallState; the async thunks are
modelled by passing the backend results (success or failure) explicitly as
Except values; the WebSocket hook becomes a small labelled transition
system whose events are the asynchronous callbacks of the browser event
loop (close-event delivery, timer firing, spontaneous network disconnect).
-/

namespace AICC

/-- Call record, mirroring the Call interface of the source.  The source
declares status as a union of string literals, but updateCallStatus writes
an arbitrary string into it through a cast, so status is embedded as a
plain String. -/
structure Call where
  id : String
  phone_number : String
  status : String
  caller_id : Option String
  direction : String
  twilio_call_sid : Option String
  started_at : Option String
  ended_at : Option String
  duration : Option Nat
  recording_url : Option String
  ai_persona : String
  created_at : String
  updated_at : String
deriving DecidableEq, Repr

/-- Transcript record, mirroring the Transcript interface of the source.
The speaker field is typed as a string union in the source but arrives
untyped over the wire, so it is embedded as String. -/
structure Transcript where
  id : String
  call_id : String
  speaker : String
  text : String
  timestamp : String
  confidence : Option Rat
  created_at : String
deriving DecidableEq, Repr

/-- Response of POST /calls/initiate, mirroring CallInitiateResponse. -/
structure CallInitiateResponse where
  call_id : String
  status : String
  phone_number : String
  created_at : String
  websocket_url : String
deriving DecidableEq, Repr

/-- The state held by the call slice (interface CallState in the source). -/
structure CallState where
  activeCall : Option Call
  callHistory : List Call
  transcripts : List Transcript
  loading : Bool
  error : Option String
  totalCalls : Nat
  currentPage : Nat
deriving DecidableEq, Repr

/-- initialState of the call slice. -/
def initialState : CallState :=
  { activeCall := none
    callHistory := []
    transcripts := []
    loading := false
    error := none
    totalCalls := 0
    currentPage := 1 }

/-- Reducer setActiveCall. -/
def setActiveCall (c : Call) (s : CallState) : CallState :=
  { s with activeCall := some c }

/-- Reducer updateCallStatus: writes the given status into the active call
only when its id equals the given callId; otherwise the state is returned
untouched.  Mirrors the optional-chaining comparison in the source. -/
def updateCallStatus (callId status : String) (s : CallState) : CallState :=
  match s.activeCall with
  | some c => if c.id = callId then { s with activeCall := some { c with status := status } } else s
  | none => s

/-- Reducer addTranscript: unconditional push to the end of the log. -/
def addTranscript (t : Transcript) (s : CallState) : CallState :=
  { s with transcripts := s.transcripts ++ [t] }

/-- Reducer clearActiveCall. -/
def clearActiveCall (s : CallState) : CallState :=
  { s with activeCall := none, transcripts := [] }

/-- Reducer setError. -/
def setError (e : String) (s : CallState) : CallState :=
  { s with error := some e }

/-- Reducer clearError. -/
def clearError (s : CallState) : CallState :=
  { s with error := none }

/-- Models the JavaScript idiom m OR default used for the rejected
reducers: the default message is substituted when the error message is the
empty string (the falsy case). -/
def messageOr (m fallback : String) : String :=
  if m = "" then fallback else m

/-- extraReducer for initiateCall.pending. -/
def initiateCallPending (s : CallState) : CallState :=
  { s with loading := true, error := none }

/-- extraReducer for initiateCall.fulfilled: stores the fetched call and
clears the transcript log. -/
def initiateCallFulfilled (call : Call) (s : CallState) : CallState :=
  { s with loading := false, activeCall := some call, transcripts := [] }

/-- extraReducer for initiateCall.rejected. -/
def initiateCallRejected (m : String) (s : CallState) : CallState :=
  { s with loading := false, error := some (messageOr m "Failed to initiate call") }

/-- extraReducer for fetchCallHistory.pending. -/
def fetchCallHistoryPending (s : CallState) : CallState :=
  { s with loading := true }

/-- extraReducer for fetchCallHistory.fulfilled. -/
def fetchCallHistoryFulfilled (items : List Call) (total page : Nat) (s : CallState) : CallState :=
  { s with loading := false, callHistory := items, totalCalls := total, currentPage := page }

/-- extraReducer for fetchCallHistory.rejected. -/
def fetchCallHistoryRejected (m : String) (s : CallState) : CallState :=
  { s with loading := false, error := some (messageOr m "Failed to fetch call history") }

/-- extraReducer for fetchCallDetails.pending. -/
def fetchCallDetailsPending (s : CallState) : CallState :=
  { s with loading := true }

/-- extraReducer for fetchCallDetails.fulfilled: full snapshot replace of
the active call and the transcript log.  Note that the source applies the
payload unconditionally; it never compares the payload call id with the
currently tracked active call. -/
def fetchCallDetailsFulfilled (call : Call) (ts : List Transcript) (s : CallState) : CallState :=
  { s with loading := false, activeCall := some call, transcripts := ts }

/-- extraReducer for fetchCallDetails.rejected. -/
def fetchCallDetailsRejected (m : String) (s : CallState) : CallState :=
  { s with loading := false, error := some (messageOr m "Failed to fetch call details") }

/-- extraReducer for endCall.fulfilled.  The dispatched action carries the
callId returned by the thunk, but the reducer ignores it (its handler binds
only the state), hence the unused argument. -/
def endCallFulfilled (_callId : String) (s : CallState) : CallState :=
  match s.activeCall with
  | some c => { s with activeCall := some { c with status := "completed" } }
  | none => s

/-- The initiateCall thunk: dispatches pending, awaits the backend
initiation call, then the detail fetch for the returned call id, and
dispatches fulfilled or rejected.  The two backend results are passed in
explicitly as Except values (error carries the rejection message). -/
def initiateCallThunk (initRes : Except String CallInitiateResponse)
    (getCallRes : String → Except String Call) (s : CallState) : CallState :=
  let s1 := initiateCallPending s
  match initRes with
  | Except.error m => initiateCallRejected m s1
  | Except.ok resp =>
    match getCallRes resp.call_id with
    | Except.error m => initiateCallRejected m s1
    | Except.ok call => initiateCallFulfilled call s1

/-- The endCall thunk: awaits the backend DELETE and returns the callId.
The slice registers a handler only for endCall.fulfilled; the pending and
rejected actions of this thunk match no reducer, so on failure the
dispatched actions leave the state untouched. -/
def endCallThunk (endRes : Except String Unit) (callId : String) (s : CallState) : CallState :=
  match endRes with
  | Except.error _ => s
  | Except.ok _ => endCallFulfilled callId s

/-- The fetchCallDetails thunk: dispatches pending, awaits the call fetch
and the transcript fetch, then fulfilled or rejected. -/
def fetchCallDetailsThunk (callRes : Except String Call)
    (trRes : Except String (List Transcript)) (s : CallState) : CallState :=
  let s1 := fetchCallDetailsPending s
  match callRes with
  | Except.error m => fetchCallDetailsRejected m s1
  | Except.ok call =>
    match trRes with
    | Except.error m => fetchCallDetailsRejected m s1
    | Except.ok ts => fetchCallDetailsFulfilled call ts s1

/-- Folds a list of appendTranscript operations over a state, in order. -/
def appendAll (es : List Transcript) (s : CallState) : CallState :=
  es.foldl (fun st e => addTranscript e st) s

/-- JSON values as delivered by JSON.parse.  Numbers are abstracted as
integers; no claim concerns numeric payload fields. -/
inductive Json where
  | null : Json
  | bool (b : Bool) : Json
  | num (n : Int) : Json
  | str (s : String) : Json
  | arr (xs : List Json) : Json
  | obj (fields : List (String × Json)) : Json

/-- JavaScript property access v.k: a field lookup that yields none
(undefined) on any non-object value or missing key. -/
def Json.getField : Json → String → Option Json
  | Json.obj fs, k => (fs.find? (fun p => p.1 = k)).map Prod.snd
  | _, _ => none

/-- Domain events produced by the CallPage message handler.  A transcript
message yields an appended entry built from the speaker, text and
timestamp fields (each possibly absent, since the payload is untyped); a
status-update message yields a status change carrying the status field. -/
inductive DomainEvent where
  | transcriptAppended (speaker text timestamp : Option Json) : DomainEvent
  | statusChanged (status : Option Json) : DomainEvent

/-- The event normalization pipeline: ws.onmessage parses the raw frame
(JSON.parse failure is caught and logged, delivering nothing, modelled by a
none input), then the CallPage onMessage handler dispatches on the type
discriminator: the literal strings transcript and status-update produce a
domain event, every other value is ignored.  A total function: no input
raises. -/
def normalize (raw : Option Json) : Option DomainEvent :=
  match raw with
  | none => none
  | some j =>
    match j.getField "type" with
    | some (Json.str t) =>
      if t = "transcript" then
        some (DomainEvent.transcriptAppended (j.getField "speaker") (j.getField "text")
          (j.getField "timestamp"))
      else if t = "status_update" then
        some (DomainEvent.statusChanged (j.getField "status"))
      else none
    | _ => none

/-
Transport Channel (useWebSocket hook).  The hook state consists of the two
refs (wsRef, reconnectTimeoutRef) plus the underlying browser socket.  The
browser delivers the close event of a socket asynchronously, also when the
close was requested by the client itself via ws.close, so closing an open
socket queues a close-event delivery; the onclose handler then schedules
the 3000 ms reconnection timer unconditionally.  The model counts every
construction of a WebSocket (each is a new connection open).
-/

/-- State of one mounted useWebSocket hook instance together with its
underlying socket. -/
structure ChannelState where
  /-- the callId closed over by the hook is non-null -/
  callIdPresent : Bool
  /-- wsRef.current is non-null -/
  wsRef : Bool
  /-- the underlying socket is open (not yet closed) -/
  socketOpen : Bool
  /-- reconnectTimeoutRef holds a pending, uncancelled timeout -/
  timerPending : Bool
  /-- a close event of the current socket awaits delivery on the event loop -/
  closeQueued : Bool
  /-- number of WebSocket constructions performed so far -/
  opens : Nat
deriving DecidableEq, Repr

/-- The connect callback: returns immediately when callId is null,
otherwise constructs a new WebSocket, installs the handlers and stores it
in wsRef. -/
def connect (s : ChannelState) : ChannelState :=
  if s.callIdPresent then
    { s with opens := s.opens + 1, wsRef := true, socketOpen := true }
  else s

/-- Asynchronous occurrences on the event loop. -/
inductive ChannelEvent where
  | netDisconnect : ChannelEvent
  | deliverClose : ChannelEvent
  | fireTimer : ChannelEvent
deriving DecidableEq, Repr

/-- One event-loop step.  A network disconnect closes an open socket and
queues its close event.  Delivering a queued close event runs ws.onclose,
which schedules the reconnection timer.  A firing timer runs connect. -/
def channelStep : ChannelEvent → ChannelState → ChannelState
  | ChannelEvent.netDisconnect, s =>
    if s.socketOpen then { s with socketOpen := false, closeQueued := true } else s
  | ChannelEvent.deliverClose, s =>
    if s.closeQueued then { s with closeQueued := false, timerPending := true } else s
  | ChannelEvent.fireTimer, s =>
    if s.timerPending then connect { s with timerPending := false } else s

/-- Runs a sequence of event-loop occurrences. -/
def channelRun : List ChannelEvent → ChannelState → ChannelState
  | [], s => s
  | e :: es, s => channelRun es (channelStep e s)

/-- The disconnect callback: clears any pending reconnection timeout, then
closes the socket held in wsRef and nulls the ref.  Closing a socket that
is still open queues the delivery of its close event; closing an already
closed socket queues nothing. -/
def disconnect (s : ChannelState) : ChannelState :=
  let s1 := { s with timerPending := false }
  if s1.wsRef then
    if s1.socketOpen then
      { s1 with socketOpen := false, closeQueued := true, wsRef := false }
    else
      { s1 with wsRef := false }
  else s1

/-
Concrete sample values used by counterexamples and witnesses.
-/

/-- A sample in-progress call with id call-A. -/
def exCallA : Call :=
  { id := "call-A"
    phone_number := "+821012345678"
    status := "in_progress"
    caller_id := none
    direction := "outbound"
    twilio_call_sid := none
    started_at := none
    ended_at := none
    duration := none
    recording_url := none
    ai_persona := "default"
    created_at := "2024-01-01T00:00:00Z"
    updated_at := "2024-01-01T00:00:00Z" }

/-- A second sample call with a different id. -/
def exCallB : Call :=
  { exCallA with id := "call-B", status := "ringing" }

/-- A sample transcript entry. -/
def exEntry : Transcript :=
  { id := "t-1"
    call_id := "call-A"
    speaker := "user"
    text := "hello"
    timestamp := "2024-01-01T00:00:01Z"
    confidence := none
    created_at := "2024-01-01T00:00:01Z" }

/-- A state tracking exCallA as the active call. -/
def exStateA : CallState :=
  { initialState with activeCall := some exCallA }

/-- A state whose active call already reached the terminal status
completed. -/
def exStateCompleted : CallState :=
  { initialState with activeCall := some { exCallA with status := "completed" } }

/-- A channel state as reached right after a successful mount: callId
present, one socket constructed and open, no timer, no queued event. -/
def chanS0 : ChannelState :=
  { callIdPresent := true
    wsRef := true
    socketOpen := true
    timerPending := false
    closeQueued := false
    opens := 1 }

/-- Modelled from the spec: the status transition graph of section 4.3,
as its reflexive-transitive closure.  This is the spec-side comparison
definition used to state the forward-progress claim; the source itself
contains no such graph. -/
def specAdvances : String → String → Bool
  | "initiating", "initiating" => true
  | "initiating", "ringing" => true
  | "initiating", "in_progress" => true
  | "initiating", "completed" => true
  | "initiating", "failed" => true
  | "ringing", "ringing" => true
  | "ringing", "in_progress" => true
  | "ringing", "completed" => true
  | "ringing", "failed" => true
  | "in_progress", "in_progress" => true
  | "in_progress", "completed" => true
  | "in_progress", "failed" => true
  | "completed", "completed" => true
  | "failed", "failed" => true
  | _, _ => false

/-- A sample successful initiation response for call-A. -/
def exInitResp : CallInitiateResponse :=
  { call_id := "call-A"
    status := "initiating"
    phone_number := "+821012345678"
    created_at := "2024-01-01T00:00:00Z"
    websocket_url := "ws://localhost:8000/ws/call/call-A" }

/-
Helper lemmas.
-/

/-- Folding appendTranscript over a list concatenates it to the log. -/
theorem appendAll_transcripts (es : List Transcript) (s : CallState) :
    (appendAll es s).transcripts = s.transcripts ++ es := by
  induction es generalizing s with
  | nil => simp [appendAll]
  | cons e es ih =>
    show (appendAll es (addTranscript e s)).transcripts = s.transcripts ++ (e :: es)
    rw [ih]
    simp [addTranscript]

/-- A channel state with no open socket, no pending timer and no queued
close event is inert under a single event-loop step. -/
theorem channel_quiescent_step (e : ChannelEvent) (s : ChannelState)
    (h1 : s.socketOpen = false) (h2 : s.timerPending = false)
    (h3 : s.closeQueued = false) : channelStep e s = s := by
  cases e <;> simp [channelStep, h1, h2, h3]

/-- A quiescent channel state is inert under every event sequence. -/
theorem channel_quiescent_run (evs : List ChannelEvent) (s : ChannelState)
    (h1 : s.socketOpen = false) (h2 : s.timerPending = false)
    (h3 : s.closeQueued = false) : channelRun evs s = s := by
  induction evs with
  | nil => rfl
  | cons e es ih =>
    show channelRun es (channelStep e s) = s
    rw [channel_quiescent_step e s h1 h2 h3, ih]

/-- In the ordering where the disconnect close event has already been
delivered before close is called, disconnect yields a quiescent state: the
pending reconnection timer is cancelled and no connection is ever opened
again.  This is the half of the teardown guarantee the source does honor. -/
theorem disconnect_after_delivered_close (s : ChannelState)
    (h1 : s.socketOpen = false) (h3 : s.closeQueued = false)
    (evs : List ChannelEvent) : channelRun evs (disconnect s) = disconnect s := by
  have hd : disconnect s = { s with timerPending := false, wsRef := false } := by
    by_cases hw : s.wsRef = true
    · simp [disconnect, hw, h1]
    · simp only [Bool.not_eq_true] at hw
      simp [disconnect, hw]
  rw [hd]
  exact channel_quiescent_run evs _ h1 rfl h3

/-
Claim theorems.
-/

/-- Claim C1: evaluation of the code at the failing input.  Start from a
freshly connected channel (one WebSocket constructed).  Calling close via
disconnect cancels any pending timer, but closing the open socket queues
the delivery of its own close event; when the event loop delivers it, the
onclose handler of the hook schedules the reconnection timer, and when
that timer fires, connect constructs a second WebSocket.  So a new
connection open does occur after close, contradicting the claim that
close atomically prevents all reconnection. -/
theorem C1_reconnect_after_close :
    (disconnect chanS0).timerPending = false ∧
    (disconnect chanS0).opens = 1 ∧
    (channelRun [ChannelEvent.deliverClose, ChannelEvent.fireTimer]
      (disconnect chanS0)).opens = 2 := by
  decide

/-- Claim C2, as amended: the fetchCallDetails fulfilled reducer applies
the snapshot unconditionally.  Even when the currently tracked active call
has a different id than the fetched call, the response replaces activeCall
and the transcript log; no stale-response guard exists. -/
theorem C2_snapshot_applied_unconditionally (s : CallState) (call : Call)
    (ts : List Transcript) (c : Call) (hc : s.activeCall = some c)
    (hne : c.id ≠ call.id) :
    fetchCallDetailsFulfilled call ts s =
      { s with loading := false, activeCall := some call, transcripts := ts } := rfl

/-- Claim C2, counterexample to the claim as stated: a resolved snapshot
for call-B arriving while call-A is the tracked active call is not
dropped; the state changes and the foreign call is installed. -/
theorem C2_counterexample :
    exStateA.activeCall = some exCallA ∧ exCallA.id ≠ exCallB.id ∧
    fetchCallDetailsFulfilled exCallB [] exStateA ≠ exStateA ∧
    (fetchCallDetailsFulfilled exCallB [] exStateA).activeCall = some exCallB := by
  decide

/-- Claim C2 witness: the amended theorem applied at a concrete stale
response. -/
theorem C2_witness :
    fetchCallDetailsFulfilled exCallB [] exStateA =
      { exStateA with loading := false, activeCall := some exCallB, transcripts := [] } :=
  C2_snapshot_applied_unconditionally exStateA exCallB [] exCallA rfl (by decide)

/-- Claim C3, as amended: the store does not restrict status movement to
the forward transition graph.  A status event whose callId matches the
active call overwrites the status with the delivered value unconditionally,
even when the transition is not a forward one, so the status can regress
through stream events as well as through snapshot refreshes. -/
theorem C3_status_event_unrestricted (s : CallState) (c : Call) (cid st : String)
    (hc : s.activeCall = some c) (hid : c.id = cid)
    (hreg : specAdvances c.status st = false) :
    (updateCallStatus cid st s).activeCall = some { c with status := st } := by
  simp [updateCallStatus, hc, hid]

/-- Claim C3, counterexample to the claim as stated: from the terminal
status completed, a matching status event carrying ringing moves the
active call back to ringing, a regression performed by a stream event, not
by a snapshot refresh. -/
theorem C3_counterexample :
    specAdvances "completed" "ringing" = false ∧
    exStateCompleted.activeCall = some { exCallA with status := "completed" } ∧
    (updateCallStatus "call-A" "ringing" exStateCompleted).activeCall =
      some { exCallA with status := "ringing" } := by
  decide

/-- Claim C3 witness: the amended theorem applied at the concrete
regressing event. -/
theorem C3_witness :
    (updateCallStatus "call-A" "ringing" exStateCompleted).activeCall =
      some { { exCallA with status := "completed" } with status := "ringing" } :=
  C3_status_event_unrestricted exStateCompleted { exCallA with status := "completed" }
    "call-A" "ringing" rfl rfl (by decide)

/-- Claim C4: a status event whose callId differs from the id of the
active call (or arriving when no call is active) leaves the whole state
unchanged; a matching event changes exactly the status field of the active
call, leaving every other field, the transcript log, the history and the
flags untouched. -/
theorem C4_updateCallStatus_guard (s : CallState) (cid st : String) :
    (s.activeCall.map Call.id ≠ some cid → updateCallStatus cid st s = s) ∧
    (∀ c, s.activeCall = some c → c.id = cid →
      updateCallStatus cid st s = { s with activeCall := some { c with status := st } }) := by
  constructor
  · intro h
    cases hA : s.activeCall with
    | none => simp [updateCallStatus, hA]
    | some c =>
      rw [hA] at h
      have hne : c.id ≠ cid := by
        intro hEq
        exact h (by simp [hEq])
      simp [updateCallStatus, hA, hne]
  · intro c hc hid
    simp [updateCallStatus, hc, hid]

/-- Claim C4 witness: both branches at concrete inputs. -/
theorem C4_witness :
    updateCallStatus "call-B" "ringing" exStateA = exStateA ∧
    updateCallStatus "call-A" "ringing" exStateA =
      { exStateA with activeCall := some { exCallA with status := "ringing" } } :=
  ⟨(C4_updateCallStatus_guard exStateA "call-B" "ringing").1 (by decide),
   (C4_updateCallStatus_guard exStateA "call-A" "ringing").2 exCallA rfl rfl⟩

/-- Claim C5: after a snapshot application, any finite sequence of
appendTranscript operations yields exactly the snapshot transcript list
with the appended entries concatenated at the end, in append order.  The
entries list is arbitrary, in particular it may repeat ids: appends are
unconditional and nothing deduplicates. -/
theorem C5_transcript_append_only (s : CallState) (call : Call)
    (ts entries : List Transcript) :
    (appendAll entries (fetchCallDetailsFulfilled call ts s)).transcripts =
      ts ++ entries := by
  rw [appendAll_transcripts]
  rfl

/-- Claim C6: applying the same snapshot twice in succession produces a
state identical to applying it once. -/
theorem C6_applySnapshot_idempotent (s : CallState) (call : Call)
    (ts : List Transcript) :
    fetchCallDetailsFulfilled call ts (fetchCallDetailsFulfilled call ts s) =
      fetchCallDetailsFulfilled call ts s := rfl

/-- Claim C7: the initiateCall thunk performs backend initiation then a
detail fetch.  On success the fetched call is installed and the transcript
log is cleared.  If either backend call fails, the rejection message is
stored as the advisory error while the previously stored active call,
transcript log and history are left exactly as they were: no partial
snapshot is applied. -/
theorem C7_startCall_spec (s : CallState)
    (initRes : Except String CallInitiateResponse)
    (g : String → Except String Call) :
    (∀ resp call, initRes = Except.ok resp → g resp.call_id = Except.ok call →
      initiateCallThunk initRes g s =
        { s with loading := false, error := none,
                 activeCall := some call, transcripts := [] }) ∧
    (∀ m, initRes = Except.error m →
      initiateCallThunk initRes g s =
        { s with loading := false,
                 error := some (messageOr m "Failed to initiate call") }) ∧
    (∀ resp m, initRes = Except.ok resp → g resp.call_id = Except.error m →
      initiateCallThunk initRes g s =
        { s with loading := false,
                 error := some (messageOr m "Failed to initiate call") }) := by
  refine ⟨?_, ?_, ?_⟩
  · intro resp call h1 h2
    subst h1
    simp [initiateCallThunk, h2, initiateCallPending, initiateCallFulfilled]
  · intro m h1
    subst h1
    simp [initiateCallThunk, initiateCallPending, initiateCallRejected]
  · intro resp m h1 h2
    subst h1
    simp [initiateCallThunk, h2, initiateCallPending, initiateCallRejected]

/-- Claim C7 witness: the success branch and the initiation-failure branch
at concrete inputs. -/
theorem C7_witness :
    initiateCallThunk (Except.ok exInitResp) (fun _ => Except.ok exCallA) exStateA =
      { exStateA with loading := false, error := none,
                      activeCall := some exCallA, transcripts := [] } ∧
    initiateCallThunk (Except.error "boom") (fun _ => Except.ok exCallA) exStateA =
      { exStateA with loading := false,
                      error := some (messageOr "boom" "Failed to initiate call") } :=
  ⟨(C7_startCall_spec exStateA (Except.ok exInitResp) (fun _ => Except.ok exCallA)).1
      exInitResp exCallA rfl rfl,
   (C7_startCall_spec exStateA (Except.error "boom") (fun _ => Except.ok exCallA)).2.1
      "boom" rfl⟩

/-- Claim C8, as amended: when the backend end-of-call request fails, the
slice registers no handler for the rejected action, so the entire store
state is left unchanged: in particular no optimistic transition to
completed happens, and the advisory error value is not populated either. -/
theorem C8_stop_failure_state_unchanged (s : CallState) (m cid : String) :
    endCallThunk (Except.error m) cid s = s := rfl

/-- Claim C8, counterexample to the claim as stated: a failed stop with
message network-down leaves the error value at none, so the failure
message does not populate the advisory error value. -/
theorem C8_counterexample :
    endCallThunk (Except.error "network down") "call-A" exStateA = exStateA ∧
    exStateA.error = none ∧
    (endCallThunk (Except.error "network down") "call-A" exStateA).error ≠
      some "network down" := by
  decide

/-- Claim C9: normalization is a total function of the parse result; a
parse failure, an array, an object with no type field, and every
unrecognized type value produce no event, and whenever an event is
produced the payload carried the type transcript or the type
status-update. -/
theorem C9_normalize_total_classification :
    (normalize none = none) ∧
    (∀ j e, normalize (some j) = some e →
      j.getField "type" = some (Json.str "transcript") ∨
      j.getField "type" = some (Json.str "status_update")) ∧
    (∀ j, j.getField "type" = none → normalize (some j) = none) ∧
    (∀ xs, normalize (some (Json.arr xs)) = none) := by
  refine ⟨rfl, ?_, ?_, ?_⟩
  · intro j e h
    simp only [normalize] at h
    split at h
    · rename_i t heq
      split at h
      · rename_i h1
        left
        rw [heq, h1]
      · split at h
        · rename_i h2
          right
          rw [heq, h2]
        · cases h
    · cases h
  · intro j hf
    simp only [normalize]
    rw [hf]
  · intro xs
    rfl

/-- Claim C9 witness: a status-update payload is classified, and an object
without a type field normalizes to none. -/
theorem C9_witness :
    ((Json.obj [("type", Json.str "status_update"), ("status", Json.str "ringing")]).getField
        "type" = some (Json.str "transcript") ∨
     (Json.obj [("type", Json.str "status_update"), ("status", Json.str "ringing")]).getField
        "type" = some (Json.str "status_update")) ∧
    normalize (some (Json.obj [("foo", Json.null)])) = none :=
  ⟨C9_normalize_total_classification.2.1 _
      (DomainEvent.statusChanged (some (Json.str "ringing"))) rfl,
   C9_normalize_total_classification.2.2.1 _ rfl⟩

/-- Claim C10: the endCall fulfilled reducer ignores the callId payload.
A successful stop marks whatever call is currently active as completed,
also when the active call has a different id than the stopped one; with no
active call it is a no-op. -/
theorem C10_markEnded_ignores_callId (s : CallState) (cid : String) :
    (∀ c, s.activeCall = some c →
      endCallThunk (Except.ok Unit.unit) cid s =
        { s with activeCall := some { c with status := "completed" } }) ∧
    (s.activeCall = none → endCallThunk (Except.ok Unit.unit) cid s = s) := by
  constructor
  · intro c hc
    simp [endCallThunk, endCallFulfilled, hc]
  · intro hc
    simp [endCallThunk, endCallFulfilled, hc]

/-- Claim C10 witness: stopping call-Z while call-A is active still marks
call-A completed; stopping with no active call changes nothing. -/
theorem C10_witness :
    endCallThunk (Except.ok Unit.unit) "call-Z" exStateA =
      { exStateA with activeCall := some { exCallA with status := "completed" } } ∧
    endCallThunk (Except.ok Unit.unit) "call-Z" initialState = initialState :=
  ⟨(C10_markEnded_ignores_callId exStateA "call-Z").1 exCallA rfl,
   (C10_markEnded_ignores_callId initialState "call-Z").2 rfl⟩

end AICC
